import Mathlib

/-!
Verification development for the node-jt400 data-access layer (HSQL
in-memory configuration).  The repository ships only the unit tests of the
layer (`test/hsql-spec.ts`); the library itself (`lib/jt400`) is not part of
the sources at hand, so the definitions below are shallow models of the
layer, modelled from the specification's component contracts (§4) and pinned
to the concrete behaviour that the unit tests assert.
-/

namespace Jt400

/-! ## Exact decimal marshalling (Type Marshaller, spec §4.1)

Modelled from the spec: decimal columns marshal to exact numeric values;
the streaming serializer renders a DECIMAL(15,0) value as its exact decimal
digit string (the tests observe `"1234567891234"`).  `digitsAux` extracts
base-10 digits little-endian with a structural fuel argument (15 digits
suffice for DECIMAL(15,0)). -/

def digitsAux : Nat → Nat → List Nat
  | 0, _ => []
  | fuel + 1, n => if n = 0 then [] else n % 10 :: digitsAux fuel (n / 10)

/-- Little-endian evaluation of a base-10 digit list. -/
def ofDigitsLE : List Nat → Nat
  | [] => 0
  | d :: ds => d + 10 * ofDigitsLE ds

/-- The character for one decimal digit. -/
def decChar (d : Nat) : Char := Char.ofNat (48 + d)

/-- Modelled from the spec: render a non-negative decimal value (at most 15
digits, per DECIMAL(15,0)) as its exact decimal digit string. -/
def natToDecString (n : Nat) : String :=
  if n = 0 then "0" else String.mk (((digitsAux 15 n).reverse).map decChar)

/-- Modelled from the spec: read a decimal digit string back to its exact
numeric value (the native side of the marshaller). -/
def parseDecString (s : String) : Nat :=
  ofDigitsLE ((s.data.map (fun c => c.toNat - 48)).reverse)

theorem digitsAux_lt_ten (fuel : Nat) :
    ∀ n d, d ∈ digitsAux fuel n → d < 10 := by
  induction fuel with
  | zero => intro n d h; simp [digitsAux] at h
  | succ f ih =>
    intro n d h
    by_cases hn : n = 0
    · simp [digitsAux, hn] at h
    · simp only [digitsAux, if_neg hn, List.mem_cons] at h
      rcases h with h | h
      · subst h; exact Nat.mod_lt _ (by omega)
      · exact ih _ _ h

theorem ofDigitsLE_digitsAux (fuel : Nat) :
    ∀ n, n < 10 ^ fuel → ofDigitsLE (digitsAux fuel n) = n := by
  induction fuel with
  | zero => intro n h; simp at h; simp [h, digitsAux, ofDigitsLE]
  | succ f ih =>
    intro n h
    by_cases hn : n = 0
    · simp [digitsAux, hn, ofDigitsLE]
    · have hdiv : n / 10 < 10 ^ f := by
        rw [Nat.div_lt_iff_lt_mul (by omega)]
        calc n < 10 ^ (f + 1) := h
        _ = 10 ^ f * 10 := by rw [Nat.pow_succ]
      simp only [digitsAux, if_neg hn, ofDigitsLE, ih _ hdiv]
      omega

theorem decChar_toNat (d : Nat) (h : d < 10) :
    (decChar d).toNat - 48 = d := by
  interval_cases d <;> decide

theorem parseDecString_natToDecString (n : Nat) (h : n < 10 ^ 15) :
    parseDecString (natToDecString n) = n := by
  by_cases hn : n = 0
  · subst hn; decide
  · unfold natToDecString parseDecString
    rw [if_neg hn]
    have hdata : (String.mk (((digitsAux 15 n).reverse).map decChar)).data
        = ((digitsAux 15 n).reverse).map decChar := rfl
    rw [hdata, List.map_map]
    have hmap : ((digitsAux 15 n).reverse).map ((fun c => c.toNat - 48) ∘ decChar)
        = ((digitsAux 15 n).reverse).map id := by
      apply List.map_congr_left
      intro d hd
      rw [List.mem_reverse] at hd
      exact decChar_toNat d (digitsAux_lt_ten 15 n d hd)
    rw [hmap, List.map_id, List.reverse_reverse]
    exact ofDigitsLE_digitsAux 15 n h

/-! ## The in-memory test table (spec §3, §4.2, tests `beforeEach`)

Modelled from the spec and the tests: the unit tests work against one table
`testtbl (ID DECIMAL(15,0) GENERATED BY DEFAULT AS IDENTITY(START WITH S),
NAME VARCHAR(300), START DATE, STAMP TIMESTAMP)`.  A cell is an exact
decimal value, a character value, or SQL null (null database values marshal
to an explicit absent-value marker, spec §4.1). -/

inductive Cell where
  | dec : Nat → Cell
  | chr : String → Cell
  | null : Cell
deriving DecidableEq, Repr

/-- Modelled from the spec: the state of the identity-keyed test table.
`start` is the identity column's declared start value, `used` counts
identity values already consumed (the identity sequence), `rows` the
committed rows in insertion order. -/
structure TestDb where
  start : Nat
  used : Nat
  rows : List (List Cell)
deriving DecidableEq, Repr

/-- A freshly created test table with identity start value `S`. -/
def freshTestDb (S : Nat) : TestDb := ⟨S, 0, []⟩

/-- The next identity value the table will generate (spec glossary: an
identity column has a defined starting value and increment 1). -/
def nextKey (db : TestDb) : Nat := db.start + db.used

/-- Modelled from the spec: `insert into testtbl (NAME) values(?)` — the ID
is generated from the identity sequence, the DATE and TIMESTAMP columns were
never set and stay null. -/
def insertName (db : TestDb) (name : String) : TestDb :=
  { start := db.start
    used := db.used + 1
    rows := db.rows ++ [[Cell.dec (nextKey db), Cell.chr name, Cell.null, Cell.null]] }

/-- Modelled from the spec: `insertAndGetId` runs the insert and returns the
generated key together with the new table state. -/
def insertAndGetId (db : TestDb) (name : String) : Nat × TestDb :=
  (nextKey db, insertName db name)

/-- Modelled from the spec: `insertList(table, idColumn, records)` inserts
the records in order and returns the list of generated keys. -/
def insertListNames : TestDb → List String → List Nat × TestDb
  | db, [] => ([], db)
  | db, n :: ns =>
    let rest := insertListNames (insertName db n) ns
    (nextKey db :: rest.1, rest.2)

/-! ## Row serialization (`asStream`, spec §4.3)

Modelled from the spec: `asStream` serializes rows incrementally as one JSON
array of row-arrays; decimal cells render as quoted exact digit strings,
null cells as the JSON literal `null` (never `0`, never the empty
string). -/

def serializeCell : Cell → String
  | Cell.dec n => "\"" ++ natToDecString n ++ "\""
  | Cell.chr s => "\"" ++ s ++ "\""
  | Cell.null => "null"

/-- One row as a JSON array of serialized cells. -/
def serializeRow (r : List Cell) : String :=
  "[" ++ String.intercalate "," (r.map serializeCell) ++ "]"

/-- The full serialized result of `asStream`: a JSON array of row arrays. -/
def asStreamString (db : TestDb) : String :=
  "[" ++ String.intercalate "," (db.rows.map serializeRow) ++ "]"

/-! ## Transaction Coordinator (spec §4.5)

Modelled from the spec: `transaction(body)` acquires a connection with
auto-commit disabled and runs `body` against it.  A body is a state
transformer that ends either in a value or in a thrown/rejected error; it
returns the working state it had reached at that point.  On success the
coordinator commits, making the working state the committed state, and
returns the body's result; on failure it rolls back — the committed rows are
restored — and propagates the original error value unchanged.  The identity
sequence is not transactional (standard SQL behaviour): rollback does not
return consumed identity values. -/

def transaction {ε α : Type} (body : TestDb → TestDb × Except ε α) (db : TestDb) :
    TestDb × Except ε α :=
  match body db with
  | (db2, Except.ok a) => (db2, Except.ok a)
  | (db2, Except.error e) =>
    ({ start := db2.start, used := db2.used, rows := db.rows }, Except.error e)

/-! ## Write/Batch Loader (spec §4.4, §6, §7)

Modelled from the spec: `batchUpdate(sql, paramTuples)` submits the whole
parameter set as one batched execution.  The number of `?` placeholders in
the SQL template fixes the expected tuple arity; a tuple of the wrong arity
breaks the underlying call convention and fails the whole batch with an
error payload `{message, cause, context: {sql, params}, category}` whose
category marks a caller-programming error. -/

structure OopsError where
  message : String
  cause : String
  contextSql : String
  contextParams : List (List String)
  category : String
deriving DecidableEq, Repr

/-- Number of `?` parameter placeholders in a SQL template. -/
def placeholderCount (sql : String) : Nat :=
  sql.data.countP (fun c => c = '?')

/-- Modelled from the spec: the error payload a failed batch surfaces — the
underlying driver message, an underlying-cause description (the tests see
the native stack of `JdbcJsonClient.setParams`), the exact submitted SQL and
parameter set as context, and the coarse category `ProgrammerError`. -/
def arityError (sql : String) (params : List (List String)) : OopsError :=
  { message := "data exception: invalid datetime format"
    cause := "JdbcJsonClient.setParams"
    contextSql := sql
    contextParams := params
    category := "ProgrammerError" }

/-- Modelled from the spec: batched execution.  When every tuple matches the
template arity, each tuple is applied and reports one affected row (the
tests' insert batches); otherwise the whole batch fails atomically with the
programmer-error payload. -/
def batchUpdate (db : TestDb) (sql : String) (params : List (List String)) :
    Except OopsError (List Nat × TestDb) :=
  if params.all (fun t => t.length = placeholderCount sql) then
    Except.ok (params.map (fun _ => 1),
      { start := db.start
        used := db.used + params.length
        rows := db.rows ++ params.map (fun t => t.map Cell.chr) })
  else
    Except.error (arityError sql params)

/-! ## Streaming reads and stream-time errors (spec §4.3, §7)

Modelled from the spec: `createReadStream` always hands back a stream (the
original call does not reject); the stream then emits serialized data chunks
followed by an end event, or — when materialization fails, e.g. a parameter
was supplied for a placeholder index past the template's placeholder count —
a single terminal error event carrying the underlying driver message. -/

inductive StreamEvent where
  | chunk : String → StreamEvent
  | eos : StreamEvent
  | err : String → StreamEvent
deriving DecidableEq, Repr

/-- The driver's message when parameter index `i` is out of range. -/
def oorMessage (i : Nat) : String :=
  "Invalid argument in JDBC call: parameter index out of range: " ++ natToDecString i

/-- Modelled from the spec: the event sequence a streamed query emits.  With
more parameters than placeholders, binding parameter number
`placeholderCount sql + 1` fails and the failure is delivered as a terminal
error event on the stream itself; otherwise the serialized rows stream out
and the stream ends. -/
def createReadStream (db : TestDb) (sql : String) (params : List String) :
    List StreamEvent :=
  if params.length ≤ placeholderCount sql then
    [StreamEvent.chunk (asStreamString db), StreamEvent.eos]
  else
    [StreamEvent.err (oorMessage (placeholderCount sql + 1))]

/-! ## Program-Call Marshaller (spec §4.6)

Modelled from the spec: `defineProgram(schema)` yields a callable.  On
invocation the mock registry is consulted first — at call time, against the
client state as it is then, not at bind time — and a registered mock handles
the call entirely; otherwise the input record is packed field by field in
schema order into a fixed-layout buffer, the remote procedure is called, and
the returned buffer is unpacked by the same schema (numeric fields carry an
implied fixed-point scale, abstracted here as their decimal text). -/

structure PgmField where
  name : String
  size : Nat
  decimals : Option Nat
deriving DecidableEq, Repr

inductive PgmValue where
  | s : String → PgmValue
  | n : Int → PgmValue
deriving DecidableEq, Repr

/-- A program-call input/output record: named field values. -/
def PgmInput := List (String × PgmValue)

/-- Find a field's value in an input record. -/
def lookupField : PgmInput → String → Option PgmValue
  | [], _ => none
  | (k, v) :: rest, f => if k = f then some v else lookupField rest f

/-- Decimal text of a possibly negative value. -/
def intToDecString (i : Int) : String :=
  if i < 0 then "-" ++ natToDecString i.natAbs else natToDecString i.natAbs

/-- Pad a field's text to its fixed byte size with trailing blanks. -/
def padTo (size : Nat) (s : String) : String :=
  s ++ String.mk (List.replicate (size - s.length) (Char.ofNat 32))

/-- Pack one schema field from the input record into its fixed-size slot. -/
def packField (inp : PgmInput) (f : PgmField) : String :=
  match lookupField inp f.name with
  | some (PgmValue.s t) => padTo f.size t
  | some (PgmValue.n i) => padTo f.size (intToDecString i)
  | none => padTo f.size ""

/-- Pack the whole input record in schema order into one positional buffer. -/
def packPgm (schema : List PgmField) (inp : PgmInput) : String :=
  String.join (schema.map (packField inp))

/-- Unpack a returned buffer into an output record by the same schema and
field order (numeric reparsing is abstracted: each slot comes back as its
text). -/
def unpackPgm : List PgmField → List Char → PgmInput
  | [], _ => []
  | f :: fs, cs => (f.name, PgmValue.s (String.mk (cs.take f.size))) :: unpackPgm fs (cs.drop f.size)

/-- Modelled from the spec: the client instance.  `remote` is the remote
call path (program name and packed buffer to returned buffer); `mocks` is
the instance-wide mutable mock registry, a map from program name to
substitute function. -/
structure Client where
  remote : String → String → String
  mocks : String → Option (PgmInput → PgmInput)

/-- Modelled from the spec: `mockPgm(name, fn)` registers or overwrites
exactly one mock for `name`, leaving other registrations untouched. -/
def mockPgm (c : Client) (pgmName : String) (fn : PgmInput → PgmInput) : Client :=
  { c with mocks := fun m => if m = pgmName then some fn else c.mocks m }

/-- Modelled from the spec: one invocation.  The Boolean records whether the
remote call path was reached (`true`) or the mock bypassed it (`false`). -/
def invokePgm (c : Client) (pgmName : String) (schema : List PgmField) (inp : PgmInput) :
    PgmInput × Bool :=
  match c.mocks pgmName with
  | some fn => (fn inp, false)
  | none => (unpackPgm schema (c.remote pgmName (packPgm schema inp)).data, true)

/-- Modelled from the spec: `defineProgram` binds only the program name and
schema; the client state — and with it the mock registry — is consulted at
call time, so the callable is a function of the client state at the moment
of the call. -/
def defineProgram (pgmName : String) (schema : List PgmField) :
    Client → PgmInput → PgmInput × Bool :=
  fun c inp => invokePgm c pgmName schema inp

/-! ## Streaming materializer flow control (spec §4.3, §5, §8)

Modelled from the spec: the materializer pulls rows from the driver-side
cursor only while the prefetch buffer has room (`bufferSize = N` caps the
fetched-but-unconsumed rows); the consumer drains the buffer row by row;
`close()` may arrive at any time and stops all further fetching, while rows
already fetched may still flow to the consumer.  The state tracks row counts
only, which is what the bounds are about. -/

structure StreamSt where
  pending : Nat
  buffered : Nat
  delivered : Nat
  closed : Bool
deriving DecidableEq, Repr

/-- One scheduler step of the streaming materializer with buffer bound `N`:
fetch one row ahead (only while open and below the bound), deliver one
buffered row to the consumer, or close the statement. -/
inductive SStep (N : Nat) : StreamSt → StreamSt → Prop where
  | fetch : ∀ s : StreamSt, s.closed = false → s.buffered < N → 0 < s.pending →
      SStep N s ⟨s.pending - 1, s.buffered + 1, s.delivered, false⟩
  | deliver : ∀ s : StreamSt, 0 < s.buffered →
      SStep N s ⟨s.pending, s.buffered - 1, s.delivered + 1, s.closed⟩
  | close : ∀ s : StreamSt,
      SStep N s ⟨s.pending, s.buffered, s.delivered, true⟩

/-- Finitely many scheduler steps. -/
inductive SSteps (N : Nat) : StreamSt → StreamSt → Prop where
  | refl : ∀ s : StreamSt, SSteps N s s
  | tail : ∀ s t u : StreamSt, SSteps N s t → SStep N t u → SSteps N s u

/-- The materializer's start state over a result set of `rows` rows: nothing
fetched, nothing delivered, statement open. -/
def initStreamSt (rows : Nat) : StreamSt := ⟨rows, 0, 0, false⟩

/-! ## Metadata paths (spec §4.3 `metadata()`, §4.7 `getColumns`)

Modelled from the spec and pinned by the unit tests: both paths describe the
test table's columns as `{name, typeName, precision, scale}`.  The tests
assert that the result-set path (`statement.metadata()` after `execute`)
reports the TIMESTAMP column with scale 6 (sub-second digits), while the
catalog path (`getColumns`) reports the declared scale 0 for every column of
the test table. -/

structure ColumnDesc where
  name : String
  typeName : String
  precision : Nat
  scale : Nat
deriving DecidableEq, Repr

/-- The test table's column declarations: name, type name, precision. -/
def testtblSchema : List (String × String × Nat) :=
  [("ID", "DECIMAL", 15), ("NAME", "VARCHAR", 300),
   ("START", "DATE", 10), ("STAMP", "TIMESTAMP", 26)]

/-- Scale as the result-set metadata path reports it: 6 for TIMESTAMP
columns, the declared scale 0 otherwise. -/
def stmtScale (typeName : String) : Nat :=
  if typeName = "TIMESTAMP" then 6 else 0

/-- Column descriptors from `statement.metadata()` after executing
`select * from testtbl`. -/
def statementMetadata : List ColumnDesc :=
  testtblSchema.map (fun c => ⟨c.1, c.2.1, c.2.2, stmtScale c.2.1⟩)

/-- Column descriptors from the catalog path
`getColumns({schema:'PUBLIC', table:'TESTTBL'})`. -/
def getColumnsTesttbl : List ColumnDesc :=
  testtblSchema.map (fun c => ⟨c.1, c.2.1, c.2.2, 0⟩)

/-! ## Helper lemmas -/

theorem nextKey_insertName (db : TestDb) (nm : String) :
    nextKey (insertName db nm) = nextKey db + 1 := by
  simp only [nextKey, insertName]
  omega

theorem insertListNames_keys (names : List String) :
    ∀ db : TestDb,
      (insertListNames db names).1 = List.range' (nextKey db) names.length := by
  induction names with
  | nil => intro db; simp [insertListNames]
  | cons n ns ih =>
    intro db
    simp [insertListNames, List.range', ih (insertName db n), nextKey_insertName]

theorem sstep_buffered_le (N : Nat) (t u : StreamSt) (hst : SStep N t u)
    (ht : t.buffered ≤ N) : u.buffered ≤ N := by
  cases hst <;> simp_all <;> omega

theorem ssteps_buffered_le (N r : Nat) (s : StreamSt)
    (h : SSteps N (initStreamSt r) s) : s.buffered ≤ N := by
  induction h with
  | refl => simp [initStreamSt]
  | tail t u h1 h2 ih => exact sstep_buffered_le N t u h2 ih

theorem sstep_sum_after_close (N : Nat) (t u : StreamSt) (h : SStep N t u)
    (ht : t.closed = true) :
    u.delivered + u.buffered ≤ t.delivered + t.buffered ∧ u.closed = true := by
  cases h <;> simp_all
  omega

theorem ssteps_delivered_after_close (N : Nat) (c s : StreamSt)
    (h : SSteps N c s) (hc : c.closed = true) :
    s.delivered + s.buffered ≤ c.delivered + c.buffered ∧ s.closed = true := by
  induction h with
  | refl => exact ⟨Nat.le_refl _, hc⟩
  | tail t u h1 h2 ih =>
    obtain ⟨hsum, hcl⟩ := ih
    have h3 := sstep_sum_after_close N t u h2 hcl
    exact ⟨Nat.le_trans h3.1 hsum, h3.2⟩

/-! ## Concrete fixtures shared by the claims' witnesses

`baseTestDb` is the state the tests' `beforeEach` leaves behind: the test
table created with identity start 1234567891234 and one row
`'Foo bar baz'` inserted. -/

def baseTestDb : TestDb := insertName (freshTestDb 1234567891234) "Foo bar baz"

def txCommitBody : TestDb → TestDb × Except Nat Nat :=
  fun db => (insertName db "Transaction 1", Except.ok 0)

def txRollbackBody : TestDb → TestDb × Except Nat Nat :=
  fun db => (insertName db "Transaction 1", Except.error 7)

def oopsSql : String := "insert into testtbl (NAME,START) values(?, ?)"

def oopsParams : List (List String) :=
  [["foo", "2015-01-02"], ["bar", "2015-03-04"], ["a", "b", "c", "d"]]

/-! ## Claim theorems -/

/-- Claim C1: for every body passed to `transaction`: if the body completes
normally, all writes it performed are visible afterwards and the body's
result is returned; if the body throws or rejects after performing writes,
none of those writes are visible afterwards (the committed rows are exactly
the rows from before the transaction) and the very same error value,
unchanged, is propagated to the caller. -/
theorem transaction_atomicity {ε α : Type} (body : TestDb → TestDb × Except ε α)
    (db : TestDb) :
    (∀ (db2 : TestDb) (a : α), body db = (db2, Except.ok a) →
        transaction body db = (db2, Except.ok a))
    ∧ (∀ (db2 : TestDb) (e : ε), body db = (db2, Except.error e) →
        (transaction body db).1.rows = db.rows
        ∧ (transaction body db).2 = Except.error e) := by
  constructor
  · intro db2 a h
    simp [transaction, h]
  · intro db2 e h
    simp [transaction, h]

/-- Witness for C1: a committing body (insert then succeed) publishes its
write and returns its result; a rolling-back body (the tests' insert then
`throw fakeError`) leaves the rows untouched and propagates the same error
value. -/
theorem transaction_atomicity_witness :
    transaction txCommitBody baseTestDb
        = (insertName baseTestDb "Transaction 1", Except.ok 0)
    ∧ (transaction txRollbackBody baseTestDb).1.rows = baseTestDb.rows
    ∧ (transaction txRollbackBody baseTestDb).2 = Except.error 7 :=
  ⟨(transaction_atomicity txCommitBody baseTestDb).1
      (insertName baseTestDb "Transaction 1") 0 rfl,
   ((transaction_atomicity txRollbackBody baseTestDb).2
      (insertName baseTestDb "Transaction 1") 7 rfl).1,
   ((transaction_atomicity txRollbackBody baseTestDb).2
      (insertName baseTestDb "Transaction 1") 7 rfl).2⟩

/-- Claim C2: a `batchUpdate` call in which some parameter tuple does not
match the SQL template's arity fails as a whole with a single error payload
carrying the exact submitted SQL in `context.sql`, the full submitted
parameter set in `context.params`, a non-empty underlying cause, and the
category `ProgrammerError`. -/
theorem batchUpdate_arity_error (db : TestDb) (sql : String)
    (params : List (List String))
    (h : ∃ t ∈ params, t.length ≠ placeholderCount sql) :
    batchUpdate db sql params = Except.error (arityError sql params)
    ∧ (arityError sql params).contextSql = sql
    ∧ (arityError sql params).contextParams = params
    ∧ (arityError sql params).category = "ProgrammerError"
    ∧ (arityError sql params).cause ≠ "" := by
  have hfalse : ¬ (params.all (fun t => t.length = placeholderCount sql) = true) := by
    rw [List.all_eq_true]
    intro hall
    obtain ⟨t, ht, hne⟩ := h
    exact hne (by simpa using hall t ht)
  refine ⟨?_, rfl, rfl, rfl, by simp [arityError]⟩
  unfold batchUpdate
  rw [if_neg hfalse]

/-- Witness for C2: the tests' failing batch — two well-formed tuples and
one of arity 4 against a two-placeholder insert template. -/
theorem batchUpdate_arity_error_witness :
    batchUpdate baseTestDb oopsSql oopsParams = Except.error (arityError oopsSql oopsParams)
    ∧ (arityError oopsSql oopsParams).contextSql = oopsSql
    ∧ (arityError oopsSql oopsParams).contextParams = oopsParams
    ∧ (arityError oopsSql oopsParams).category = "ProgrammerError"
    ∧ (arityError oopsSql oopsParams).cause ≠ "" :=
  batchUpdate_arity_error baseTestDb oopsSql oopsParams
    ⟨["a", "b", "c", "d"], by decide, by decide⟩

/-- Claim C3: once `mockPgm(p, fn)` is registered, every invocation of any
callable produced by `defineProgram` for program `p` — the callable is a
function of the client state at call time, so this includes callables
created before the mock was registered — invokes `fn` and never reaches the
remote call path (the reached-remote flag is `false`). -/
theorem mockPgm_overrides_remote (c : Client) (p : String)
    (fn : PgmInput → PgmInput) (schema : List PgmField) (inp : PgmInput) :
    defineProgram p schema (mockPgm c p fn) inp = (fn inp, false) := by
  simp [defineProgram, invokePgm, mockPgm]

/-- Claim C4: successive inserts into an identity-keyed table with declared
start value `S` yield strictly increasing, contiguous generated keys
starting from `S` — the key list of `n` successive inserts is
`[S, S+1, ..., S+n-1]` — and after one insert into a table with
`S = 1234567891234`, `insertAndGetId` returns `1234567891235`. -/
theorem insert_identity_keys_contiguous (S : Nat) (names : List String) :
    (insertListNames (freshTestDb S) names).1 = List.range' S names.length
    ∧ (insertAndGetId (insertName (freshTestDb 1234567891234) "Foo bar baz") "foo").1
        = 1234567891235 := by
  constructor
  · have h := insertListNames_keys names (freshTestDb S)
    simpa [nextKey, freshTestDb] using h
  · rfl

/-- Counterexample for C5 as stated: on an *empty* identity table starting
at `S = 1234567891234`, `insertList` with two records does not return
`[S+1, S+2] = [1234567891235, 1234567891236]` (it returns `[S, S+1]`), so
the claimed conjunction fails. -/
theorem insertList_empty_table_counterexample :
    ¬ ((insertListNames (freshTestDb 1234567891234) ["foo", "bar"]).1
          = [1234567891235, 1234567891236]
       ∧ (insertListNames (freshTestDb 1234567891234) ["foo", "bar"]).2.rows.length = 2) := by
  decide

/-- Claim C5 (amended): on an empty identity table starting at `S`,
`insertList` with records `[{NAME:'foo'},{NAME:'bar'}]` returns the
generated-key list `[S, S+1]` and leaves exactly 2 rows in the table. -/
theorem insertList_empty_table_keys (S : Nat) :
    (insertListNames (freshTestDb S) ["foo", "bar"]).1 = [S, S + 1]
    ∧ (insertListNames (freshTestDb S) ["foo", "bar"]).2.rows.length = 2 :=
  ⟨rfl, rfl⟩

/-- Claim C6: decimal column values round-trip exactly with no
floating-point rounding — for every value within DECIMAL(15,0) precision,
parsing the marshalled digit string returns the exact value, the serialized
cell is exactly the quoted digit string, and the generated numeric key of an
identity insert is the exact integer successor of the previous key. -/
theorem decimal_roundtrip_exact (v : Nat) (h : v < 10 ^ 15) :
    parseDecString (natToDecString v) = v
    ∧ serializeCell (Cell.dec v) = "\"" ++ natToDecString v ++ "\""
    ∧ (insertAndGetId (insertName (freshTestDb v) "a") "b").1 = v + 1 :=
  ⟨parseDecString_natToDecString v h, rfl, rfl⟩

/-- Witness for C6: the identity-scale integer 1234567891234 round-trips
exactly, and the second insert into a table starting there yields exactly
1234567891235. -/
theorem decimal_roundtrip_exact_witness :
    parseDecString (natToDecString 1234567891234) = 1234567891234
    ∧ serializeCell (Cell.dec 1234567891234)
        = "\"" ++ natToDecString 1234567891234 ++ "\""
    ∧ (insertAndGetId (insertName (freshTestDb 1234567891234) "a") "b").1
        = 1234567891235 :=
  decimal_roundtrip_exact 1234567891234 (by norm_num)

/-- Claim C7: null database column values marshal to the explicit JSON
`null` marker — never `0`, never the empty string — and the tests' row whose
DATE and TIMESTAMP columns were never set serializes via `asStream` as
`[["1234567891234","Foo bar baz",null,null]]`. -/
theorem null_marshals_to_null :
    serializeCell Cell.null = "null"
    ∧ serializeCell Cell.null ≠ "0"
    ∧ serializeCell Cell.null ≠ "\"\""
    ∧ asStreamString (insertName (freshTestDb 1234567891234) "Foo bar baz")
        = "[[\"1234567891234\",\"Foo bar baz\",null,null]]" := by
  refine ⟨rfl, by decide, by decide, by decide⟩

/-- Claim C8: a streaming read whose parameters are malformed (more
parameters than the SQL template has placeholders) delivers the failure as a
single terminal error event on the stream itself, carrying the underlying
driver message for the out-of-range parameter index — the original
`createReadStream` call still returns the stream, and the error is never
silently swallowed (no data chunk and no clean end are emitted). -/
theorem stream_error_event (db : TestDb) (sql : String) (params : List String)
    (h : placeholderCount sql < params.length) :
    createReadStream db sql params
      = [StreamEvent.err (oorMessage (placeholderCount sql + 1))] := by
  unfold createReadStream
  rw [if_neg (by omega)]

/-- Witness for C8: the tests' scenario — one parameter against
`select * from testtbl`, which has no placeholder — yields exactly the
terminal error event with the driver's message for parameter index 1. -/
theorem stream_error_event_witness :
    createReadStream baseTestDb "select * from testtbl" ["a"]
      = [StreamEvent.err "Invalid argument in JDBC call: parameter index out of range: 1"] := by
  rw [stream_error_event baseTestDb "select * from testtbl" ["a"] (by decide)]
  decide

/-- Claim C9: with `bufferSize = N`, the number of fetched-but-unconsumed
rows never exceeds `N` in any reachable scheduler state, and if the consumer
closes the statement after `k` delivered rows, every state reachable from
the close point delivers at most `k + N` rows in total (close stops further
fetching; already-fetched rows may still drain without error). -/
theorem stream_backpressure_close_bound (N r : Nat) :
    (∀ s : StreamSt, SSteps N (initStreamSt r) s → s.buffered ≤ N)
    ∧ (∀ c s : StreamSt, SSteps N (initStreamSt r) c → c.closed = true →
        SSteps N c s → s.delivered ≤ c.delivered + N) := by
  constructor
  · intro s h
    exact ssteps_buffered_le N r s h
  · intro c s hc hclosed hcs
    have h1 := ssteps_buffered_le N r c hc
    have h2 := (ssteps_delivered_after_close N c s hcs hclosed).1
    omega

/-- Witness for C9: with `N = 1` over a 2-row result set, the trace
fetch–deliver–close reaches a buffered state within the bound and, from the
closed state with 1 delivered row, no reachable state exceeds 1 + 1
delivered rows. -/
theorem stream_backpressure_close_bound_witness :
    (⟨1, 1, 0, false⟩ : StreamSt).buffered ≤ 1
    ∧ (⟨1, 0, 1, true⟩ : StreamSt).delivered
        ≤ (⟨1, 0, 1, true⟩ : StreamSt).delivered + 1 := by
  have t1 : SSteps 1 (initStreamSt 2) ⟨1, 1, 0, false⟩ :=
    SSteps.tail _ _ _ (SSteps.refl _)
      (SStep.fetch (initStreamSt 2) rfl (by decide) (by decide))
  have t2 : SSteps 1 (initStreamSt 2) ⟨1, 0, 1, false⟩ :=
    SSteps.tail _ _ _ t1 (SStep.deliver _ (by decide))
  have t3 : SSteps 1 (initStreamSt 2) ⟨1, 0, 1, true⟩ :=
    SSteps.tail _ _ _ t2 (SStep.close _)
  exact ⟨(stream_backpressure_close_bound 1 2).1 _ t1,
         (stream_backpressure_close_bound 1 2).2 _ _ t3 rfl (SSteps.refl _)⟩

/-- Claim C10: the two metadata paths disagree exactly on the TIMESTAMP
scale — `statement.metadata()` reports scale 6 for the STAMP column while
`getColumns` reports scale 0 — and agree on every name, type name and
precision (and on the scale of every non-TIMESTAMP column of the test
table). -/
theorem metadata_paths_timestamp_scale :
    statementMetadata.map (fun c => (c.name, c.typeName, c.precision))
        = getColumnsTesttbl.map (fun c => (c.name, c.typeName, c.precision))
    ∧ statementMetadata.map ColumnDesc.scale = [0, 0, 0, 6]
    ∧ getColumnsTesttbl.map ColumnDesc.scale = [0, 0, 0, 0]
    ∧ statementMetadata.get? 3 = some ⟨"STAMP", "TIMESTAMP", 26, 6⟩
    ∧ getColumnsTesttbl.get? 3 = some ⟨"STAMP", "TIMESTAMP", 26, 0⟩
    ∧ statementMetadata ≠ getColumnsTesttbl := by
  decide

end Jt400
